import Mathlib

/-!
Verification development for the agent-trader backtesting engine.

The Python core (src/backtester.py, src/src/risk_manager.py,
src/src/pattern_scorer.py, src/src/data_preprocessor.py) is shallowly
embedded below: prices are exact rationals, pandas NaN-able columns become
`Option ℚ`, dataframes become lists of bar records, and Python's
`round(x, 2)` becomes round-half-even to two decimal places over ℚ.
-/

set_option maxHeartbeats 1000000

namespace AgentTrader

/-- Round half to even to the nearest integer: the semantics of Python's
builtin `round` on exact decimal inputs. -/
def roundHalfEven (q : ℚ) : ℤ :=
  if q - ⌊q⌋ < 1/2 then ⌊q⌋
  else if 1/2 < q - ⌊q⌋ then ⌊q⌋ + 1
  else if ⌊q⌋ % 2 = 0 then ⌊q⌋ else ⌊q⌋ + 1

/-- Python's `round(x, 2)`: round to the nearest multiple of 1/100,
ties to even. -/
def round2 (q : ℚ) : ℚ := (roundHalfEven (q * 100) : ℚ) / 100

/-- Risk parameters returned by the risk model
(src/src/risk_manager.py, `compute_risk`). -/
structure RiskParameters where
  stop_loss : ℚ
  take_profit : ℚ
deriving Repr, DecidableEq

/-- Embedding of `compute_risk` (src/src/risk_manager.py, lines 6-25):
if `current_atr <= 0` both levels collapse to the current price; otherwise
`stop_loss = round(price - 2*atr, 2)` and
`take_profit = round(price + 4*atr, 2)`. -/
def compute_risk (current_price current_atr : ℚ) : RiskParameters :=
  if current_atr ≤ 0 then
    { stop_loss := current_price, take_profit := current_price }
  else
    { stop_loss := round2 (current_price - 2 * current_atr),
      take_profit := round2 (current_price + 4 * current_atr) }

/-- One OHLCV bar of the ticker dataframe; only the columns the embedded
core reads (High, Low, Close, Volume). -/
structure Bar where
  high : ℚ
  low : ℚ
  close : ℚ
  volume : ℚ
deriving Repr, DecidableEq

/-- One row of the market-regime dataframe (^NSEI.csv): Close and the
NaN-able sma200 column. -/
structure RegimeRow where
  close : ℚ
  sma200 : Option ℚ
deriving Repr, DecidableEq

/-- Embedding of `ScorerConfig` (src/src/pattern_scorer.py, lines 10-30)
with its dataclass defaults. -/
structure ScorerConfig where
  relative_strength_lookback_days : ℕ := 10
  relative_strength_score_max : ℚ := 4
  volume_score_max : ℚ := 3
  sma_bonus_score : ℚ := 3
  volatility_score_max : ℚ := 2
  volatility_target_pct_low : ℚ := 3/2
  volatility_target_pct_high : ℚ := 4
deriving Repr, DecidableEq

/-- Property `relative_strength_score_scale_factor`: maps a 5% relative
outperformance to the max score. -/
def ScorerConfig.relative_strength_score_scale_factor (c : ScorerConfig) : ℚ :=
  c.relative_strength_score_max / (5/100)

/-- Property `volume_score_scale_factor`: maps a 100% volume surge to the
max score. -/
def ScorerConfig.volume_score_scale_factor (c : ScorerConfig) : ℚ :=
  c.volume_score_max / 1

/-- Insertion of an element into a sorted list (helper for the median). -/
def insertSorted (x : ℚ) : List ℚ → List ℚ
  | [] => [x]
  | y :: ys => if x ≤ y then x :: y :: ys else y :: insertSorted x ys

/-- Insertion sort (helper for the median). -/
def sortQ : List ℚ → List ℚ
  | [] => []
  | x :: xs => insertSorted x (sortQ xs)

/-- pandas `Series.median()`: middle element of the sorted values for odd
length, mean of the two middle elements for even length, NaN (none) for an
empty series. -/
def median? (xs : List ℚ) : Option ℚ :=
  let s := sortQ xs
  let n := s.length
  if n = 0 then none
  else if n % 2 = 1 then s.get? (n / 2)
  else
    match s.get? (n / 2 - 1), s.get? (n / 2) with
    | some a, some b => some ((a + b) / 2)
    | _, _ => none

/-- Embedding of `_calculate_relative_strength_score`
(src/src/pattern_scorer.py, lines 33-51). `iloc[-1]` becomes `getLast?`
and `iloc[-lookback]` becomes index `length - lookback`; the guard makes
the `getD 0` defaults unreachable. Python's falsy test
`if stock_price_ago` maps the zero denominator to a zero return. -/
def calculate_relative_strength_score
    (stock_df : List Bar) (market_df : List RegimeRow) (cfg : ScorerConfig) : ℚ :=
  if stock_df.length < cfg.relative_strength_lookback_days + 1 ∨ market_df = [] ∨
      market_df.length < cfg.relative_strength_lookback_days + 1 then 0
  else
    let lookback := cfg.relative_strength_lookback_days + 1
    let stock_price_now := ((stock_df.map Bar.close).getLast?).getD 0
    let stock_price_ago := ((stock_df.map Bar.close).get? (stock_df.length - lookback)).getD 0
    let stock_return := if stock_price_ago = 0 then 0
      else (stock_price_now - stock_price_ago) / stock_price_ago
    let market_price_now := ((market_df.map RegimeRow.close).getLast?).getD 0
    let market_price_ago := ((market_df.map RegimeRow.close).get? (market_df.length - lookback)).getD 0
    let market_return := if market_price_ago = 0 then 0
      else (market_price_now - market_price_ago) / market_price_ago
    let relative_return := stock_return - market_return
    min (max 0 (relative_return * cfg.relative_strength_score_scale_factor))
      cfg.relative_strength_score_max

/-- Embedding of `_calculate_volume_score` (src/src/pattern_scorer.py,
lines 54-61). The empty-dataframe case (both matches `none`) is
unreachable from `score`, which guards the window length first. -/
def calculate_volume_score (df : List Bar) (cfg : ScorerConfig) : ℚ :=
  match median? (df.map Bar.volume), (df.map Bar.volume).getLast? with
  | some median_vol, some current_vol =>
    if 0 < median_vol then
      min (max 0 ((current_vol / median_vol - 1) * cfg.volume_score_scale_factor))
        cfg.volume_score_max
    else 0
  | _, _ => 0

/-- Embedding of `_calculate_volatility_score` (src/src/pattern_scorer.py,
lines 64-83): gated to 0 when momentum is non-positive, the price is
non-positive, or ATR is NaN; otherwise an inverse-volatility band with
linear interpolation between the two thresholds. -/
def calculate_volatility_score
    (price : ℚ) (atr14 : Option ℚ) (relative_strength_score : ℚ)
    (cfg : ScorerConfig) : ℚ :=
  if relative_strength_score ≤ 0 ∨ price ≤ 0 ∨ atr14 = none then 0
  else if (atr14.getD 0) / price * 100 ≤ cfg.volatility_target_pct_low then
    cfg.volatility_score_max
  else if cfg.volatility_target_pct_high ≤ (atr14.getD 0) / price * 100 then 0
  else if cfg.volatility_target_pct_high - cfg.volatility_target_pct_low ≤ 0 then 0
  else
    cfg.volatility_score_max *
      ((cfg.volatility_target_pct_high - (atr14.getD 0) / price * 100) /
        (cfg.volatility_target_pct_high - cfg.volatility_target_pct_low))

/-- Embedding of the SMA trend bonus computed inline in `score`
(src/src/pattern_scorer.py, line 119): full bonus iff sma50 is defined and
the current price is strictly above it. -/
def calculate_sma_score (current_price : ℚ) (sma50 : Option ℚ) (cfg : ScorerConfig) : ℚ :=
  match sma50 with
  | some s => if s < current_price then cfg.sma_bonus_score else 0
  | none => 0

/-- The numeric fields of the dict returned by `score`
(src/src/pattern_scorer.py, lines 110-141); the human-readable description
string is not modelled. -/
structure ScoreResult where
  final_score : ℚ
  relative_strength_score : ℚ
  volume_score : ℚ
  sma_score : ℚ
  volatility_score : ℚ
deriving Repr, DecidableEq

/-- Embedding of `score` (src/src/pattern_scorer.py, lines 86-141):
all-zero result when the window is shorter than lookback_days + 1,
otherwise the four components with final_score their sum rounded to two
decimal places. -/
def score (window_df : List Bar) (market_window_df : List RegimeRow)
    (current_price : ℚ) (sma50 atr14 : Option ℚ) (config : ScorerConfig) :
    ScoreResult :=
  if window_df.length < config.relative_strength_lookback_days + 1 then
    { final_score := 0, relative_strength_score := 0, volume_score := 0,
      sma_score := 0, volatility_score := 0 }
  else
    let relative_strength_score :=
      calculate_relative_strength_score window_df market_window_df config
    let volume_score := calculate_volume_score window_df config
    let sma_score := calculate_sma_score current_price sma50 config
    let volatility_score :=
      calculate_volatility_score current_price atr14 relative_strength_score config
    { final_score := round2
        (relative_strength_score + volume_score + sma_score + volatility_score),
      relative_strength_score := relative_strength_score,
      volume_score := volume_score,
      sma_score := sma_score,
      volatility_score := volatility_score }

/-- Embedding of `BacktestConfig` (src/backtester.py, lines 34-43) with its
dataclass defaults; the `scorer_type` string is not needed by the embedded
deterministic path. -/
structure BacktestConfig where
  forward_window : ℕ := 20
  score_threshold : ℚ := 7
  lookback_window : ℕ := 40
  sma50_period : ℕ := 50
  atr_period : ℕ := 14
deriving Repr, DecidableEq

/-- pandas `Series.min()` over a column: none for an empty series (NaN). -/
def listMin? : List ℚ → Option ℚ
  | [] => none
  | x :: xs =>
    match listMin? xs with
    | none => some x
    | some m => some (min x m)

/-- pandas `Series.max()` over a column: none for an empty series (NaN). -/
def listMax? : List ℚ → Option ℚ
  | [] => none
  | x :: xs =>
    match listMax? xs with
    | none => some x
    | some m => some (max x m)

/-- pandas comparison `a <= b` where `a` may be NaN: NaN compares false. -/
def oleB : Option ℚ → ℚ → Bool
  | some a, b => decide (a ≤ b)
  | none, _ => false

/-- pandas comparison `a >= b` where `a` may be NaN: NaN compares false. -/
def ogeB : Option ℚ → ℚ → Bool
  | some a, b => decide (b ≤ a)
  | none, _ => false

/-- The dict returned by `_get_trade_outcome` (src/backtester.py,
lines 85-103). -/
structure TradeOutcomeResult where
  outcome : String
  forward_return_pct : ℚ
deriving Repr, DecidableEq

/-- The outcome-label computation of `_get_trade_outcome`
(src/backtester.py, lines 90-97): `min_forward <= stop_loss` is checked
over the whole forward window first, then `max_forward >= take_profit`,
else the hold label `"HOLD_20_DAYS"`. -/
def trade_outcome_label (forward_df : List Bar) (risk : RiskParameters) : String :=
  if oleB (listMin? (forward_df.map Bar.low)) risk.stop_loss then "STOP_LOSS_HIT"
  else if ogeB (listMax? (forward_df.map Bar.high)) risk.take_profit then "TAKE_PROFIT_HIT"
  else "HOLD_20_DAYS"

/-- Embedding of `_get_trade_outcome` (src/backtester.py, lines 85-103):
the forward window is `df.iloc[i+1 : i+1+forward_window]`, the outcome is
`trade_outcome_label`, and the forward return compares the close exactly
`forward_window` bars after entry with the entry close, as a percentage
rounded to 2 decimals. The `getD 0` defaults are unreachable for indices
inside the dataframe. -/
def get_trade_outcome (df : List Bar) (i : ℕ) (risk : RiskParameters)
    (cfg : BacktestConfig) : TradeOutcomeResult :=
  { outcome := trade_outcome_label ((df.drop (i + 1)).take cfg.forward_window) risk,
    forward_return_pct := round2
      ((((df.get? (i + cfg.forward_window)).map Bar.close).getD 0 -
          ((df.get? i).map Bar.close).getD 0) /
        ((df.get? i).map Bar.close).getD 0 * 100) }

/-- Modelled from the spec (section 4.6 / glossary "First-touch"): the
day-by-day first-touch resolution the spec describes, with STOP_LOSS_HIT
precedence on a same-day double touch. Used only to exhibit the divergence
from the implemented whole-window rule. -/
def spec_first_touch_outcome (forward : List Bar) (risk : RiskParameters) : String :=
  match forward with
  | [] => "HOLD_TO_HORIZON"
  | b :: rest =>
    if b.low ≤ risk.stop_loss then "STOP_LOSS_HIT"
    else if risk.take_profit ≤ b.high then "TAKE_PROFIT_HIT"
    else spec_first_touch_outcome rest risk

/-- One row of the true-range computation (src/src/data_preprocessor.py,
lines 13-16): TR = max(high - low, |high - prev_close|, |low - prev_close|). -/
def tr_row (prev cur : Bar) : ℚ :=
  max (cur.high - cur.low) (max |cur.high - prev.close| |cur.low - prev.close|)

/-- The true-range series of `_calculate_atr` (src/src/data_preprocessor.py,
lines 13-18): the first bar has no previous close, and the row-wise max is
taken with `skipna=False`, so the first entry is missing (none), never 0. -/
def true_range (df : List Bar) : List (Option ℚ) :=
  match df with
  | [] => []
  | _ :: rest => none :: List.zipWith (fun prev cur => some (tr_row prev cur)) df rest

/-- pandas `Series.rolling(window=period).mean()` with the default
`min_periods = period`: defined only once `period` values are available
and every value in the trailing window is non-missing. -/
def rolling_mean (period : ℕ) (xs : List (Option ℚ)) : List (Option ℚ) :=
  (List.range xs.length).map (fun i =>
    if i + 1 < period then none
    else if ((xs.drop (i + 1 - period)).take period).all Option.isSome then
      some (((((xs.drop (i + 1 - period)).take period).map
        (fun o => o.getD 0)).sum) / (period : ℚ))
    else none)

/-- Embedding of `_calculate_atr` (src/src/data_preprocessor.py,
lines 7-19): the simple trailing mean of the true range, explicitly not
Wilder's smoothing. -/
def calculate_atr (df : List Bar) (period : ℕ) : List (Option ℚ) :=
  rolling_mean period (true_range df)

/-- One row of the preprocessed dataframe inside the backtest loop:
`preprocess_data` has already dropped every row with a missing indicator
(dropna), so sma50 and atr14 are plain numbers here. -/
structure EBar where
  high : ℚ
  low : ℚ
  close : ℚ
  volume : ℚ
  sma50 : ℚ
  atr14 : ℚ
deriving Repr, DecidableEq

/-- Projection to the OHLCV columns the scorer and outcome logic read. -/
def EBar.toBar (e : EBar) : Bar :=
  { high := e.high, low := e.low, close := e.close, volume := e.volume }

/-- pandas `market_regime.loc[current_date]` on the date-indexed regime
dataframe: the first row with a matching date, none on a KeyError. -/
def lookup_regime (series : List (ℕ × RegimeRow)) (d : ℕ) : Option RegimeRow :=
  (series.find? (fun p => p.1 == d)).map Prod.snd

/-- The regime-filter decision of run_backtest (src/backtester.py,
lines 134-144): with no market data every day passes; a date missing from
the series passes (with a warning); otherwise the day is skipped iff
sma200 is defined and Close < sma200. -/
def regime_pass (regime : Option (List (ℕ × RegimeRow))) (d : ℕ) : Bool :=
  match regime with
  | none => true
  | some series =>
    match lookup_regime series d with
    | none => true
    | some row =>
      match row.sma200 with
      | none => true
      | some s => !(decide (row.close < s))

/-- The fields of a daily log entry that the claims need (date, price and
the score result); the raw indicator columns the source also copies into
the log dict are not modelled. -/
structure LogEntry where
  date : ℕ
  price : ℚ
  result : ScoreResult
deriving Repr, DecidableEq

/-- A trade record appended by run_backtest on a qualifying day
(src/backtester.py, lines 195-216), deterministic-scorer path. -/
structure TradeEntry where
  entry_date : ℕ
  entry_price : ℚ
  pattern_score : ℚ
  stop_loss : ℚ
  take_profit : ℚ
  outcome : String
  forward_return_pct : ℚ
  relative_strength_score : ℚ
  volume_score : ℚ
  sma_score : ℚ
  volatility_score : ℚ
deriving Repr, DecidableEq

/-- Construction of the trade dict of run_backtest (src/backtester.py,
lines 197-214), deterministic-scorer path: entry price rounded to 2
decimals, the score snapshot, the risk parameters and the resolved
outcome. -/
def make_trade_entry (d : ℕ) (current_price : ℚ) (sr : ScoreResult)
    (risk : RiskParameters) (oc : TradeOutcomeResult) : TradeEntry where
  entry_date := d
  entry_price := round2 current_price
  pattern_score := sr.final_score
  stop_loss := risk.stop_loss
  take_profit := risk.take_profit
  outcome := oc.outcome
  forward_return_pct := oc.forward_return_pct
  relative_strength_score := sr.relative_strength_score
  volume_score := sr.volume_score
  sma_score := sr.sma_score
  volatility_score := sr.volatility_score

/-- The market window slice of the loop body (src/backtester.py,
lines 177-181): `market_regime.iloc[i - lookback_window : i]` when the
regime dataframe is present, an empty dataframe otherwise. -/
def market_window (regime : Option (List (ℕ × RegimeRow))) (i lb : ℕ) :
    List RegimeRow :=
  match regime with
  | some series => ((series.drop (i - lb)).take lb).map Prod.snd
  | none => []

/-- The `score(...)` call of the loop body (src/backtester.py,
lines 182-189): the trailing lookback window `df.iloc[i - lookback : i]`,
the market window, the current close, and the day's sma50/atr14 columns. -/
def step_score (df : List EBar) (regime : Option (List (ℕ × RegimeRow)))
    (cfg : BacktestConfig) (scfg : ScorerConfig) (i : ℕ) : ScoreResult :=
  score (((df.drop (i - cfg.lookback_window)).take cfg.lookback_window).map EBar.toBar)
    (market_window regime i cfg.lookback_window)
    (((df.get? i).map EBar.close).getD 0)
    (some (((df.get? i).map EBar.sma50).getD 0))
    (some (((df.get? i).map EBar.atr14).getD 0))
    scfg

/-- One iteration of the run_backtest loop (src/backtester.py,
lines 131-216), deterministic-scorer path: none when the regime filter
skips the day (no log, no scoring), otherwise the daily log entry plus the
optional trade entry when final_score ≥ score_threshold. The risk call is
bound to `compute_risk`, the function src/src/risk_manager.py actually
defines (the source's `calculate_risk_parameters` name does not resolve;
see the import model below). -/
def step_day (df : List EBar) (dates : List ℕ)
    (regime : Option (List (ℕ × RegimeRow)))
    (cfg : BacktestConfig) (scfg : ScorerConfig) (i : ℕ) :
    Option (LogEntry × Option TradeEntry) :=
  if regime_pass regime (dates.getD i 0) = false then none
  else
    some (⟨dates.getD i 0, ((df.get? i).map EBar.close).getD 0,
        step_score df regime cfg scfg i⟩,
      if cfg.score_threshold ≤ (step_score df regime cfg scfg i).final_score then
        some (make_trade_entry (dates.getD i 0)
          (((df.get? i).map EBar.close).getD 0)
          (step_score df regime cfg scfg i)
          (compute_risk (((df.get? i).map EBar.close).getD 0)
            (((df.get? i).map EBar.atr14).getD 0))
          (get_trade_outcome (df.map EBar.toBar) i
            (compute_risk (((df.get? i).map EBar.close).getD 0)
              (((df.get? i).map EBar.atr14).getD 0)) cfg))
      else none)

/-- The main loop of run_backtest (src/backtester.py, lines 131-217),
deterministic-scorer path, over the preprocessed dataframe: iterates
`i ∈ range(lookback_window, len(df) - forward_window)` in order,
accumulating the trade and daily-log lists. -/
def run_backtest_loop (df : List EBar) (dates : List ℕ)
    (regime : Option (List (ℕ × RegimeRow)))
    (cfg : BacktestConfig) (scfg : ScorerConfig) :
    List TradeEntry × List LogEntry :=
  ((List.range (df.length - cfg.forward_window)).drop cfg.lookback_window).foldl
    (fun acc i =>
      match step_day df dates regime cfg scfg i with
      | none => acc
      | some (log_entry, trade) => (acc.1 ++ trade.toList, acc.2 ++ [log_entry]))
    ([], [])

/-- Python name resolution against a list of names defined by a module (or
accepted by a function signature). -/
def resolves_name (names : List String) (name : String) : Bool :=
  names.contains name

/-- The module-scope names src/src/risk_manager.py defines (its `__all__`
and its single function definition agree). -/
def risk_manager_module_names : List String := ["compute_risk"]

/-- The name src/backtester.py line 21 imports from src.risk_manager. -/
def backtester_risk_import : String := "calculate_risk_parameters"

/-- The parameter names of `score` (src/src/pattern_scorer.py,
lines 86-93). -/
def pattern_scorer_score_params : List String :=
  ["window_df", "market_window_df", "current_price", "sma50", "atr14", "config"]

/-- The keyword argument src/backtester.py line 167 passes to `score` on
the LLM path. -/
def backtester_llm_score_kwarg : String := "components_only"

/-- The single trade a two-bar, threshold-0, zero-ATR run produces (used
only to witness C6). -/
def c6_sample_trade : TradeEntry where
  entry_date := 0
  entry_price := 1
  pattern_score := 0
  stop_loss := 1
  take_profit := 1
  outcome := "STOP_LOSS_HIT"
  forward_return_pct := 0
  relative_strength_score := 0
  volume_score := 0
  sma_score := 0
  volatility_score := 0

theorem roundHalfEven_le (q : ℚ) : (roundHalfEven q : ℚ) ≤ q + 1/2 := by
  unfold roundHalfEven
  have hfl : ((⌊q⌋ : ℤ) : ℚ) ≤ q := Int.floor_le q
  have hlt : q < (⌊q⌋ : ℚ) + 1 := Int.lt_floor_add_one q
  split_ifs with h1 h2 h3 <;> push_cast <;> linarith

theorem le_roundHalfEven (q : ℚ) : q - 1/2 ≤ (roundHalfEven q : ℚ) := by
  unfold roundHalfEven
  have hfl : ((⌊q⌋ : ℤ) : ℚ) ≤ q := Int.floor_le q
  have hlt : q < (⌊q⌋ : ℚ) + 1 := Int.lt_floor_add_one q
  split_ifs with h1 h2 h3 <;> push_cast <;> linarith

theorem round2_le (q : ℚ) : round2 q ≤ q + 1/200 := by
  unfold round2
  have h := roundHalfEven_le (q * 100)
  rw [div_le_iff₀ (by norm_num : (0:ℚ) < 100)]
  linarith

theorem le_round2 (q : ℚ) : q - 1/200 ≤ round2 q := by
  unfold round2
  have h := le_roundHalfEven (q * 100)
  rw [le_div_iff₀ (by norm_num : (0:ℚ) < 100)]
  linarith

theorem round2_le_of_le_int (q : ℚ) (c : ℤ) (h : q ≤ (c : ℚ)) :
    round2 q ≤ (c : ℚ) := by
  have h1 : (roundHalfEven (q * 100) : ℚ) ≤ (c : ℚ) * 100 + 1/2 := by
    have := roundHalfEven_le (q * 100)
    nlinarith
  have h2 : roundHalfEven (q * 100) < c * 100 + 1 := by
    have : (roundHalfEven (q * 100) : ℚ) < ((c * 100 + 1 : ℤ) : ℚ) := by
      push_cast; linarith
    exact_mod_cast this
  have h3 : roundHalfEven (q * 100) ≤ c * 100 := by omega
  unfold round2
  rw [div_le_iff₀ (by norm_num : (0:ℚ) < 100)]
  have : (roundHalfEven (q * 100) : ℚ) ≤ ((c * 100 : ℤ) : ℚ) := by
    exact_mod_cast h3
  push_cast at this ⊢
  linarith

/-- C3 counterexample: the claim "for all atr > 0, stop_loss < entry_price"
fails at entry_price = 100, atr = 1/1000 (= 0.001): rounding to 2 decimal
places collapses the stop to the entry price exactly. -/
theorem C3_strict_inequality_counterexample :
    0 < (1/1000 : ℚ) ∧ ¬ ((compute_risk 100 (1/1000)).stop_loss < 100) := by
  constructor
  · norm_num
  · show ¬ ((compute_risk 100 (1/1000)).stop_loss < 100)
    norm_num [compute_risk, round2, roundHalfEven]

/-- C3 (amended): for atr ≤ 0 both outputs equal the entry price exactly;
for atr > 0 the outputs are the exact levels entry − 2·atr and
entry + 4·atr rounded to 2 decimal places (so the pre-rounding distances
are in exact ratio 2:1); strict bracketing stop_loss < entry < take_profit
holds whenever atr > 1/400 (rounding can collapse it for smaller atr);
compute_risk(100, 5) = {90, 120} and compute_risk(100, 0) = {100, 100}. -/
theorem C3_risk_model (e a : ℚ) :
    (a ≤ 0 → compute_risk e a = { stop_loss := e, take_profit := e }) ∧
    (0 < a → compute_risk e a =
      { stop_loss := round2 (e - 2 * a), take_profit := round2 (e + 4 * a) }) ∧
    ((e + 4 * a) - e = 2 * (e - (e - 2 * a))) ∧
    (1/400 < a →
      (compute_risk e a).stop_loss < e ∧ e < (compute_risk e a).take_profit) ∧
    compute_risk 100 5 = { stop_loss := 90, take_profit := 120 } ∧
    compute_risk 100 0 = { stop_loss := 100, take_profit := 100 } := by
  refine ⟨?_, ?_, by ring, ?_, ?_, ?_⟩
  · intro h
    simp [compute_risk, h]
  · intro h
    simp [compute_risk, not_le.mpr h]
  · intro h
    have ha : (0:ℚ) < a := lt_trans (by norm_num) h
    rw [compute_risk, if_neg (not_le.mpr ha)]
    constructor
    · have := round2_le (e - 2 * a)
      simp only []
      linarith
    · have := le_round2 (e + 4 * a)
      simp only []
      linarith
  · norm_num [compute_risk, round2, roundHalfEven]
  · norm_num [compute_risk]

/-- Witness for C3_risk_model: the hypotheses are discharged at the
concrete inputs (100, 0) and (100, 5). -/
theorem C3_risk_model_witness :
    compute_risk 100 0 = { stop_loss := 100, take_profit := 100 } ∧
    (compute_risk 100 5).stop_loss < 100 ∧
    (100:ℚ) < (compute_risk 100 5).take_profit := by
  refine ⟨(C3_risk_model 100 0).1 le_rfl, ?_, ?_⟩
  · exact ((C3_risk_model 100 5).2.2.2.1 (by norm_num)).1
  · exact ((C3_risk_model 100 5).2.2.2.1 (by norm_num)).2

theorem score_spec (w : List Bar) (m : List RegimeRow) (p : ℚ)
    (s a : Option ℚ) (cfg : ScorerConfig)
    (hg : ¬ (w.length < cfg.relative_strength_lookback_days + 1)) :
    score w m p s a cfg =
      { final_score := round2
          (calculate_relative_strength_score w m cfg + calculate_volume_score w cfg +
            calculate_sma_score p s cfg +
            calculate_volatility_score p a (calculate_relative_strength_score w m cfg) cfg),
        relative_strength_score := calculate_relative_strength_score w m cfg,
        volume_score := calculate_volume_score w cfg,
        sma_score := calculate_sma_score p s cfg,
        volatility_score :=
          calculate_volatility_score p a (calculate_relative_strength_score w m cfg) cfg } := by
  unfold score
  rw [if_neg hg]

theorem calculate_relative_strength_score_bounds (s : List Bar)
    (m : List RegimeRow) (cfg : ScorerConfig)
    (h : 0 ≤ cfg.relative_strength_score_max) :
    0 ≤ calculate_relative_strength_score s m cfg ∧
    calculate_relative_strength_score s m cfg ≤ cfg.relative_strength_score_max := by
  unfold calculate_relative_strength_score
  split_ifs with hg
  · exact ⟨le_rfl, h⟩
  · exact ⟨le_min (le_max_left 0 _) h, min_le_right _ _⟩

theorem calculate_volume_score_bounds (df : List Bar) (cfg : ScorerConfig)
    (h : 0 ≤ cfg.volume_score_max) :
    0 ≤ calculate_volume_score df cfg ∧
    calculate_volume_score df cfg ≤ cfg.volume_score_max := by
  unfold calculate_volume_score
  cases hm : median? (df.map Bar.volume) with
  | none => exact ⟨le_rfl, h⟩
  | some mv =>
    cases hl : (df.map Bar.volume).getLast? with
    | none => exact ⟨le_rfl, h⟩
    | some cv =>
      dsimp only
      split_ifs with hpos
      · exact ⟨le_min (le_max_left 0 _) h, min_le_right _ _⟩
      · exact ⟨le_rfl, h⟩

theorem calculate_sma_score_bounds (p : ℚ) (s : Option ℚ) (cfg : ScorerConfig)
    (h : 0 ≤ cfg.sma_bonus_score) :
    0 ≤ calculate_sma_score p s cfg ∧
    calculate_sma_score p s cfg ≤ cfg.sma_bonus_score := by
  unfold calculate_sma_score
  cases s with
  | none => exact ⟨le_rfl, h⟩
  | some v =>
    dsimp only
    split_ifs with hlt
    · exact ⟨h, le_rfl⟩
    · exact ⟨le_rfl, h⟩

theorem calculate_volatility_score_bounds (p : ℚ) (a : Option ℚ) (rs : ℚ)
    (cfg : ScorerConfig) (h : 0 ≤ cfg.volatility_score_max) :
    0 ≤ calculate_volatility_score p a rs cfg ∧
    calculate_volatility_score p a rs cfg ≤ cfg.volatility_score_max := by
  unfold calculate_volatility_score
  split_ifs with h1 h2 h3 h4
  · exact ⟨le_rfl, h⟩
  · exact ⟨h, le_rfl⟩
  · exact ⟨le_rfl, h⟩
  · exact ⟨le_rfl, h⟩
  · push_neg at h3 h4
    constructor
    · exact mul_nonneg h (div_nonneg (by linarith) (by linarith))
    · apply mul_le_of_le_one_right h
      rw [div_le_one (by linarith)]
      push_neg at h2
      linarith

theorem round2_zero : round2 0 = 0 := by
  norm_num [round2, roundHalfEven]

/-- C4: for every input evaluated by the deterministic scorer, if the
momentum/relative-strength component is ≤ 0, or the current price is ≤ 0,
or ATR is undefined (NaN), the volatility component is exactly 0. -/
theorem C4_volatility_gated (w : List Bar) (m : List RegimeRow) (price : ℚ)
    (sma50 atr14 : Option ℚ) (cfg : ScorerConfig)
    (h : (score w m price sma50 atr14 cfg).relative_strength_score ≤ 0 ∨
      price ≤ 0 ∨ atr14 = none) :
    (score w m price sma50 atr14 cfg).volatility_score = 0 := by
  by_cases hg : w.length < cfg.relative_strength_lookback_days + 1
  · simp [score, hg]
  · rw [score_spec w m price sma50 atr14 cfg hg] at h ⊢
    unfold calculate_volatility_score
    rw [if_pos h]

/-- Witness for C4_volatility_gated at a concrete input (undefined ATR). -/
theorem C4_volatility_gated_witness :
    (score [] [] 1 none none {}).volatility_score = 0 :=
  C4_volatility_gated [] [] 1 none none {} (Or.inr (Or.inr rfl))

/-- C5: for every scorer input and any configuration with non-negative
component maxima (which includes the default configuration), each of the
four components lies in [0, its configured max], and final_score is the
sum of the four components rounded to 2 decimal places, with no clamp
applied to the sum. -/
theorem C5_component_bounds (w : List Bar) (m : List RegimeRow) (price : ℚ)
    (sma50 atr14 : Option ℚ) (cfg : ScorerConfig)
    (h1 : 0 ≤ cfg.relative_strength_score_max)
    (h2 : 0 ≤ cfg.volume_score_max)
    (h3 : 0 ≤ cfg.sma_bonus_score)
    (h4 : 0 ≤ cfg.volatility_score_max) :
    (0 ≤ (score w m price sma50 atr14 cfg).relative_strength_score ∧
      (score w m price sma50 atr14 cfg).relative_strength_score ≤
        cfg.relative_strength_score_max) ∧
    (0 ≤ (score w m price sma50 atr14 cfg).volume_score ∧
      (score w m price sma50 atr14 cfg).volume_score ≤ cfg.volume_score_max) ∧
    (0 ≤ (score w m price sma50 atr14 cfg).sma_score ∧
      (score w m price sma50 atr14 cfg).sma_score ≤ cfg.sma_bonus_score) ∧
    (0 ≤ (score w m price sma50 atr14 cfg).volatility_score ∧
      (score w m price sma50 atr14 cfg).volatility_score ≤
        cfg.volatility_score_max) ∧
    (score w m price sma50 atr14 cfg).final_score = round2
      ((score w m price sma50 atr14 cfg).relative_strength_score +
        (score w m price sma50 atr14 cfg).volume_score +
        (score w m price sma50 atr14 cfg).sma_score +
        (score w m price sma50 atr14 cfg).volatility_score) := by
  by_cases hg : w.length < cfg.relative_strength_lookback_days + 1
  · simp only [score, if_pos hg]
    exact ⟨⟨le_rfl, h1⟩, ⟨le_rfl, h2⟩, ⟨le_rfl, h3⟩, ⟨le_rfl, h4⟩,
      by norm_num [round2_zero]⟩
  · rw [score_spec w m price sma50 atr14 cfg hg]
    exact ⟨calculate_relative_strength_score_bounds w m cfg h1,
      calculate_volume_score_bounds w cfg h2,
      calculate_sma_score_bounds price sma50 cfg h3,
      calculate_volatility_score_bounds price atr14 _ cfg h4, rfl⟩

/-- Witness for C5_component_bounds at a concrete input with the default
configuration. -/
theorem C5_component_bounds_witness :
    0 ≤ (score [] [] 1 none none {}).relative_strength_score ∧
    (score [] [] 1 none none {}).final_score = round2
      ((score [] [] 1 none none {}).relative_strength_score +
        (score [] [] 1 none none {}).volume_score +
        (score [] [] 1 none none {}).sma_score +
        (score [] [] 1 none none {}).volatility_score) := by
  have h := C5_component_bounds [] [] 1 none none {}
    (by norm_num) (by norm_num) (by norm_num) (by norm_num)
  exact ⟨h.1.1, h.2.2.2.2⟩

theorem listMin?_eq_none (xs : List ℚ) : listMin? xs = none ↔ xs = [] := by
  cases xs with
  | nil => simp [listMin?]
  | cons y ys =>
    simp only [listMin?]
    cases listMin? ys <;> simp

theorem listMax?_eq_none (xs : List ℚ) : listMax? xs = none ↔ xs = [] := by
  cases xs with
  | nil => simp [listMax?]
  | cons y ys =>
    simp only [listMax?]
    cases listMax? ys <;> simp

theorem oleB_listMin?_iff (xs : List ℚ) (c : ℚ) :
    oleB (listMin? xs) c = true ↔ ∃ x ∈ xs, x ≤ c := by
  induction xs with
  | nil => simp [listMin?, oleB]
  | cons y ys ih =>
    cases h : listMin? ys with
    | none =>
      have hys : ys = [] := (listMin?_eq_none ys).mp h
      subst hys
      simp [listMin?, oleB]
    | some m =>
      simp only [listMin?, h, oleB, decide_eq_true_eq] at ih ⊢
      constructor
      · intro hmin
        rcases min_le_iff.mp hmin with h' | h'
        · exact ⟨y, by simp, h'⟩
        · obtain ⟨x, hx, hxc⟩ := ih.mp h'
          exact ⟨x, by simp [hx], hxc⟩
      · rintro ⟨x, hx, hxc⟩
        rcases List.mem_cons.mp hx with rfl | hx'
        · exact min_le_iff.mpr (Or.inl hxc)
        · exact min_le_iff.mpr (Or.inr (ih.mpr ⟨x, hx', hxc⟩))

theorem ogeB_listMax?_iff (xs : List ℚ) (c : ℚ) :
    ogeB (listMax? xs) c = true ↔ ∃ x ∈ xs, c ≤ x := by
  induction xs with
  | nil => simp [listMax?, ogeB]
  | cons y ys ih =>
    cases h : listMax? ys with
    | none =>
      have hys : ys = [] := (listMax?_eq_none ys).mp h
      subst hys
      simp [listMax?, ogeB]
    | some m =>
      simp only [listMax?, h, ogeB, decide_eq_true_eq] at ih ⊢
      constructor
      · intro hmax
        rcases le_max_iff.mp hmax with h' | h'
        · exact ⟨y, by simp, h'⟩
        · obtain ⟨x, hx, hxc⟩ := ih.mp h'
          exact ⟨x, by simp [hx], hxc⟩
      · rintro ⟨x, hx, hxc⟩
        rcases List.mem_cons.mp hx with rfl | hx'
        · exact le_max_iff.mpr (Or.inl hxc)
        · exact le_max_iff.mpr (Or.inr (ih.mpr ⟨x, hx', hxc⟩))

/-- C1 counterexample: in a forward window whose first day touches only
take-profit (high 120 ≥ 110, low 95 > 90) and whose second day touches
stop-loss (low 85 ≤ 90), the claim's first-touch rule demands
TAKE_PROFIT_HIT — and the spec-modelled first-touch scan indeed returns
it — but `_get_trade_outcome` returns STOP_LOSS_HIT, because the stop
condition is checked against the minimum low of the whole window. -/
theorem C1_first_touch_counterexample :
    (get_trade_outcome
        [⟨100, 100, 100, 0⟩, ⟨120, 95, 100, 0⟩, ⟨96, 85, 90, 0⟩] 0
        ⟨90, 110⟩ ⟨2, 7, 40, 50, 14⟩).outcome = "STOP_LOSS_HIT" ∧
    (get_trade_outcome
        [⟨100, 100, 100, 0⟩, ⟨120, 95, 100, 0⟩, ⟨96, 85, 90, 0⟩] 0
        ⟨90, 110⟩ ⟨2, 7, 40, 50, 14⟩).outcome ≠ "TAKE_PROFIT_HIT" ∧
    spec_first_touch_outcome
        [⟨120, 95, 100, 0⟩, ⟨96, 85, 90, 0⟩] ⟨90, 110⟩ = "TAKE_PROFIT_HIT" ∧
    (110 : ℚ) ≤ 120 ∧ ¬ ((95 : ℚ) ≤ 90) ∧ (85 : ℚ) ≤ 90 := by
  refine ⟨rfl, by decide, rfl, by norm_num, by norm_num, by norm_num⟩

/-- C1 (amended): the trade outcome is resolved over the whole forward
window, not first-touch: STOP_LOSS_HIT iff some bar's low ≤ stop_loss
(regardless of the day order), else TAKE_PROFIT_HIT iff some bar's
high ≥ take_profit, and a same-day double touch yields STOP_LOSS_HIT; a
take-profit touch on an earlier day than a stop-loss touch still yields
STOP_LOSS_HIT. -/
theorem C1_outcome_resolution (df : List Bar) (i : ℕ) (risk : RiskParameters)
    (cfg : BacktestConfig) :
    ((get_trade_outcome df i risk cfg).outcome = "STOP_LOSS_HIT" ↔
      ∃ b ∈ (df.drop (i + 1)).take cfg.forward_window, b.low ≤ risk.stop_loss) ∧
    ((get_trade_outcome df i risk cfg).outcome = "TAKE_PROFIT_HIT" ↔
      ((¬ ∃ b ∈ (df.drop (i + 1)).take cfg.forward_window, b.low ≤ risk.stop_loss) ∧
        ∃ b ∈ (df.drop (i + 1)).take cfg.forward_window, risk.take_profit ≤ b.high)) ∧
    (∀ b ∈ (df.drop (i + 1)).take cfg.forward_window,
      b.low ≤ risk.stop_loss → risk.take_profit ≤ b.high →
      (get_trade_outcome df i risk cfg).outcome = "STOP_LOSS_HIT") := by
  have hout : (get_trade_outcome df i risk cfg).outcome =
      trade_outcome_label ((df.drop (i + 1)).take cfg.forward_window) risk := rfl
  set F := (df.drop (i + 1)).take cfg.forward_window with hF
  have hsl : oleB (listMin? (F.map Bar.low)) risk.stop_loss = true ↔
      ∃ b ∈ F, b.low ≤ risk.stop_loss := by
    rw [oleB_listMin?_iff]
    simp [List.mem_map]
  have htp : ogeB (listMax? (F.map Bar.high)) risk.take_profit = true ↔
      ∃ b ∈ F, risk.take_profit ≤ b.high := by
    rw [ogeB_listMax?_iff]
    simp [List.mem_map]
  rw [hout]
  unfold trade_outcome_label
  split_ifs with h1 h2
  · refine ⟨iff_of_true rfl (hsl.mp h1), ?_, fun b hb hlow hhigh => rfl⟩
    exact iff_of_false (by decide) (fun hc => hc.1 (hsl.mp h1))
  · refine ⟨?_, iff_of_true rfl ⟨fun hex => h1 (hsl.mpr hex), htp.mp h2⟩, ?_⟩
    · exact iff_of_false (by decide) (fun hex => h1 (hsl.mpr hex))
    · intro b hb hlow hhigh
      exact absurd (hsl.mpr ⟨b, hb, hlow⟩) h1
  · refine ⟨?_, ?_, ?_⟩
    · exact iff_of_false (by decide) (fun hex => h1 (hsl.mpr hex))
    · exact iff_of_false (by decide) (fun hc => h2 (htp.mpr hc.2))
    · intro b hb hlow hhigh
      exact absurd (hsl.mpr ⟨b, hb, hlow⟩) h1

/-- Witness for C1_outcome_resolution: the same-day double-touch clause
applied at a concrete forward window (bar with low 85 ≤ 90 and
high 115 ≥ 110 on the same day) gives STOP_LOSS_HIT. -/
theorem C1_outcome_resolution_witness :
    (get_trade_outcome [⟨100, 100, 100, 0⟩, ⟨115, 85, 100, 0⟩] 0
      ⟨90, 110⟩ ⟨1, 7, 40, 50, 14⟩).outcome = "STOP_LOSS_HIT" :=
  (C1_outcome_resolution [⟨100, 100, 100, 0⟩, ⟨115, 85, 100, 0⟩] 0
      ⟨90, 110⟩ ⟨1, 7, 40, 50, 14⟩).2.2
    ⟨115, 85, 100, 0⟩ (by decide) (by norm_num) (by norm_num)

/-- C6 counterexample: a forward window touching neither level yields the
label "HOLD_20_DAYS", which is not among the three labels the claim
enumerates (the claim's hold label is "HOLD_TO_HORIZON"). -/
theorem C6_label_counterexample :
    (get_trade_outcome
        [⟨101, 99, 100, 0⟩, ⟨101, 99, 100, 0⟩, ⟨101, 99, 100, 0⟩] 0
        ⟨90, 110⟩ ⟨2, 7, 40, 50, 14⟩).outcome = "HOLD_20_DAYS" ∧
    ¬ ((get_trade_outcome
        [⟨101, 99, 100, 0⟩, ⟨101, 99, 100, 0⟩, ⟨101, 99, 100, 0⟩] 0
        ⟨90, 110⟩ ⟨2, 7, 40, 50, 14⟩).outcome = "STOP_LOSS_HIT" ∨
      (get_trade_outcome
        [⟨101, 99, 100, 0⟩, ⟨101, 99, 100, 0⟩, ⟨101, 99, 100, 0⟩] 0
        ⟨90, 110⟩ ⟨2, 7, 40, 50, 14⟩).outcome = "TAKE_PROFIT_HIT" ∨
      (get_trade_outcome
        [⟨101, 99, 100, 0⟩, ⟨101, 99, 100, 0⟩, ⟨101, 99, 100, 0⟩] 0
        ⟨90, 110⟩ ⟨2, 7, 40, 50, 14⟩).outcome = "HOLD_TO_HORIZON") := by
  refine ⟨rfl, ?_⟩
  rintro (h | h | h) <;> exact absurd h (by decide)

theorem get_trade_outcome_label_cases (df : List Bar) (i : ℕ)
    (risk : RiskParameters) (cfg : BacktestConfig) :
    (get_trade_outcome df i risk cfg).outcome = "STOP_LOSS_HIT" ∨
    (get_trade_outcome df i risk cfg).outcome = "TAKE_PROFIT_HIT" ∨
    (get_trade_outcome df i risk cfg).outcome = "HOLD_20_DAYS" := by
  have hout : (get_trade_outcome df i risk cfg).outcome =
      trade_outcome_label ((df.drop (i + 1)).take cfg.forward_window) risk := rfl
  rw [hout]
  unfold trade_outcome_label
  split_ifs <;> simp

/-- C10: for every trade, forward_return_pct is the close exactly
forward_window bars after entry versus the entry close, as a percentage
rounded to 2 decimals, whatever the outcome; it does not depend on the
risk parameters at all, and a STOP_LOSS_HIT trade can report a positive
forward return. -/
theorem C10_forward_return (df : List Bar) (i : ℕ) (cfg : BacktestConfig)
    (risk risk' : RiskParameters)
    (_hentry : ((df.get? i).map Bar.close).getD 0 ≠ 0) :
    (get_trade_outcome df i risk cfg).forward_return_pct =
      round2 ((((df.get? (i + cfg.forward_window)).map Bar.close).getD 0 -
          ((df.get? i).map Bar.close).getD 0) /
        ((df.get? i).map Bar.close).getD 0 * 100) ∧
    (get_trade_outcome df i risk cfg).forward_return_pct =
      (get_trade_outcome df i risk' cfg).forward_return_pct ∧
    ∃ (df' : List Bar) (i' : ℕ) (cfg' : BacktestConfig) (r : RiskParameters),
      (get_trade_outcome df' i' r cfg').outcome = "STOP_LOSS_HIT" ∧
      0 < (get_trade_outcome df' i' r cfg').forward_return_pct := by
  refine ⟨rfl, rfl, ⟨[⟨100, 100, 100, 0⟩, ⟨101, 80, 110, 0⟩], 0,
    ⟨1, 7, 40, 50, 14⟩, ⟨90, 200⟩, rfl, ?_⟩⟩
  norm_num [get_trade_outcome, round2, roundHalfEven]

/-- Witness for C10_forward_return at a concrete dataframe with a nonzero
entry close. -/
theorem C10_forward_return_witness :
    (get_trade_outcome [⟨100, 100, 100, 0⟩, ⟨101, 80, 110, 0⟩] 0
      ⟨90, 200⟩ ⟨1, 7, 40, 50, 14⟩).forward_return_pct = 10 := by
  have h := (C10_forward_return [⟨100, 100, 100, 0⟩, ⟨101, 80, 110, 0⟩] 0
    ⟨1, 7, 40, 50, 14⟩ ⟨90, 200⟩ ⟨90, 200⟩ (by norm_num)).1
  rw [h]
  norm_num [round2, roundHalfEven]

theorem true_range_length (df : List Bar) : (true_range df).length = df.length := by
  cases df with
  | nil => rfl
  | cons b rest =>
    simp [true_range, List.length_zipWith]

theorem zipWith_tr_get? :
    ∀ (l1 : List Bar) (l2 : List Bar) (i : ℕ) (p c : Bar),
      l1.get? i = some p → l2.get? i = some c →
      (List.zipWith (fun prev cur => some (tr_row prev cur)) l1 l2).get? i =
        some (some (tr_row p c)) := by
  intro l1
  induction l1 with
  | nil => intro l2 i p c hp; simp at hp
  | cons a l1' ih =>
    intro l2 i p c hp hc
    cases l2 with
    | nil => simp at hc
    | cons b l2' =>
      cases i with
      | zero =>
        simp at hp hc
        subst hp; subst hc
        rfl
      | succ i' =>
        simp only [List.get?] at hp hc ⊢
        exact ih l2' i' p c hp hc

theorem zipWith_tr_isSome (l1 l2 : List Bar) :
    ∀ x ∈ List.zipWith (fun prev cur => some (tr_row prev cur)) l1 l2,
      x.isSome = true := by
  induction l1 generalizing l2 with
  | nil => intro x hx; simp at hx
  | cons a l1' ih =>
    intro x hx
    cases l2 with
    | nil => simp at hx
    | cons b l2' =>
      rcases List.mem_cons.mp hx with rfl | hx'
      · rfl
      · exact ih l2' x hx'

theorem rolling_mean_get? (p : ℕ) (xs : List (Option ℚ)) (i : ℕ)
    (h : i < xs.length) :
    (rolling_mean p xs).get? i = some (
      if i + 1 < p then none
      else if ((xs.drop (i + 1 - p)).take p).all Option.isSome then
        some (((((xs.drop (i + 1 - p)).take p).map
          (fun o => o.getD 0)).sum) / (p : ℚ))
      else none) := by
  unfold rolling_mean
  rw [List.get?_map, List.get?_range h]
  rfl

/-- C8: the indicator engine computes TR as
max(high - low, |high - prev_close|, |low - prev_close|), the first bar's
TR is missing (not zero), ATR(n) is the simple trailing n-bar mean of TR,
and ATR is undefined for every bar whose trailing n-bar window includes
the first bar (every index < n). -/
theorem C8_atr_simple_trailing_mean (df : List Bar) (period : ℕ) :
    (df ≠ [] → (true_range df).get? 0 = some none) ∧
    (∀ i p c, df.get? i = some p → df.get? (i + 1) = some c →
      (true_range df).get? (i + 1) = some (some (tr_row p c))) ∧
    (∀ i, i < df.length → i < period →
      (calculate_atr df period).get? i = some none) ∧
    (∀ i, period ≤ i → i < df.length →
      (calculate_atr df period).get? i = some (some
        (((((true_range df).drop (i + 1 - period)).take period).map
          (fun o => o.getD 0)).sum / (period : ℚ)))) := by
  refine ⟨?_, ?_, ?_, ?_⟩
  · intro hne
    cases df with
    | nil => exact absurd rfl hne
    | cons b rest => rfl
  · intro i p c hp hc
    cases df with
    | nil => simp at hp
    | cons b rest =>
      show (none :: List.zipWith (fun pv cu => some (tr_row pv cu))
        (b :: rest) rest).get? (i + 1) = some (some (tr_row p c))
      simp only [List.get?]
      exact zipWith_tr_get? (b :: rest) rest i p c hp hc
  · intro i hi hip
    have hlen : i < (true_range df).length := by
      rw [true_range_length]; exact hi
    rw [calculate_atr, rolling_mean_get? period (true_range df) i hlen]
    by_cases h1 : i + 1 < period
    · rw [if_pos h1]
    · rw [if_neg h1]
      have hzero : i + 1 - period = 0 := by omega
      rw [hzero, List.drop_zero]
      cases df with
      | nil => simp at hi
      | cons b rest =>
        obtain ⟨p', rfl⟩ : ∃ p', period = p' + 1 := ⟨period - 1, by omega⟩
        show some (if ((none :: List.zipWith _ (b :: rest) rest).take
          (p' + 1)).all Option.isSome = true then _ else none) = some none
        rw [List.take_succ_cons]
        simp
  · intro i hpi hi
    have hlen : i < (true_range df).length := by
      rw [true_range_length]; exact hi
    rw [calculate_atr, rolling_mean_get? period (true_range df) i hlen]
    have h1 : ¬ (i + 1 < period) := by omega
    rw [if_neg h1]
    have hall : (((true_range df).drop (i + 1 - period)).take period).all
        Option.isSome = true := by
      rw [List.all_eq_true]
      intro x hx
      have hx1 : x ∈ (true_range df).drop (i + 1 - period) :=
        List.mem_of_mem_take hx
      cases df with
      | nil => simp at hi
      | cons b rest =>
        by_cases hper : period = 0
        · subst hper
          simp at hx
        · obtain ⟨k, hk⟩ : ∃ k, i + 1 - period = k + 1 := ⟨i - period, by omega⟩
          rw [hk] at hx1
          have : (true_range (b :: rest)).drop (k + 1) =
              (List.zipWith (fun pv cu => some (tr_row pv cu))
                (b :: rest) rest).drop k := rfl
          rw [this] at hx1
          exact zipWith_tr_isSome (b :: rest) rest x (List.mem_of_mem_drop hx1)
    rw [if_pos hall]

/-- Witness for C8_atr_simple_trailing_mean on a concrete 3-bar series with
period 2: the first two ATR values are missing, the third is the mean of
the two defined true ranges. -/
theorem C8_atr_witness :
    (calculate_atr [⟨10, 8, 9, 0⟩, ⟨12, 9, 11, 0⟩, ⟨13, 10, 12, 0⟩] 2).get? 1 =
      some none ∧
    (calculate_atr [⟨10, 8, 9, 0⟩, ⟨12, 9, 11, 0⟩, ⟨13, 10, 12, 0⟩] 2).get? 2 =
      some (some
        ((((((true_range [⟨10, 8, 9, 0⟩, ⟨12, 9, 11, 0⟩, ⟨13, 10, 12, 0⟩]).drop 1).take 2).map
          (fun o => o.getD 0)).sum) / (2 : ℚ))) := by
  constructor
  · exact (C8_atr_simple_trailing_mean
      [⟨10, 8, 9, 0⟩, ⟨12, 9, 11, 0⟩, ⟨13, 10, 12, 0⟩] 2).2.2.1 1
      (by norm_num) (by norm_num)
  · exact (C8_atr_simple_trailing_mean
      [⟨10, 8, 9, 0⟩, ⟨12, 9, 11, 0⟩, ⟨13, 10, 12, 0⟩] 2).2.2.2 2
      (by norm_num) (by norm_num)

/-- C7: the regime filter is fail-open: with no market regime series every
day passes; a date absent from the series passes; a present date passes
iff sma200 is undefined or close ≥ sma200; and the loop body skips a day
entirely (no daily log, no scoring, no trade) exactly when the filter
fails. -/
theorem C7_regime_fail_open (d : ℕ) (series : List (ℕ × RegimeRow))
    (row : RegimeRow) (df : List EBar) (dates : List ℕ)
    (regime : Option (List (ℕ × RegimeRow))) (cfg : BacktestConfig)
    (scfg : ScorerConfig) (i : ℕ) :
    regime_pass none d = true ∧
    (lookup_regime series d = none → regime_pass (some series) d = true) ∧
    (lookup_regime series d = some row →
      (regime_pass (some series) d = true ↔
        row.sma200 = none ∨ ∃ s, row.sma200 = some s ∧ s ≤ row.close)) ∧
    (step_day df dates regime cfg scfg i = none ↔
      regime_pass regime (dates.getD i 0) = false) := by
  refine ⟨rfl, ?_, ?_, ?_⟩
  · intro h
    simp only [regime_pass, h]
  · intro h
    simp only [regime_pass, h]
    cases hrow : row.sma200 with
    | none => simp
    | some s => simp [not_lt]
  · constructor
    · intro hc
      by_contra hne
      rw [step_day.eq_def, if_neg hne] at hc
      exact Option.some_ne_none _ hc
    · intro hreg
      rw [step_day.eq_def, if_pos hreg]

/-- Witness for C7_regime_fail_open: a date present in a concrete series
with close 100 ≥ sma200 90 passes the filter. -/
theorem C7_regime_fail_open_witness :
    regime_pass (some [(5, ⟨100, some 90⟩)]) 5 = true := by
  have h := (C7_regime_fail_open 5 [(5, ⟨100, some 90⟩)] ⟨100, some 90⟩
    [] [] none {} {} 0).2.2.1
  exact (h (by decide)).mpr (Or.inr ⟨90, rfl, by norm_num⟩)

/-- C2: the claim that run_backtest always terminates normally is right
about intent but the code cannot run: `from src.risk_manager import
calculate_risk_parameters` (src/backtester.py line 21) names a function
src/src/risk_manager.py does not define (it defines only compute_risk), so
every run fails at import; the LLM path additionally calls `score` with a
`components_only` keyword its signature does not accept. -/
theorem C2_run_backtest_import_bug :
    resolves_name risk_manager_module_names backtester_risk_import = false ∧
    resolves_name pattern_scorer_score_params backtester_llm_score_kwarg = false := by
  constructor <;> rfl

theorem rs_score_empty_market (w : List Bar) (cfg : ScorerConfig) :
    calculate_relative_strength_score w [] cfg = 0 := by
  unfold calculate_relative_strength_score
  rw [if_pos (Or.inr (Or.inl rfl))]

theorem volatility_score_rs_zero (p : ℚ) (a : Option ℚ) (cfg : ScorerConfig) :
    calculate_volatility_score p a 0 cfg = 0 := by
  unfold calculate_volatility_score
  rw [if_pos (Or.inl le_rfl)]

theorem score_empty_market (w : List Bar) (p : ℚ) (s a : Option ℚ) :
    (score w [] p s a {}).relative_strength_score = 0 ∧
    (score w [] p s a {}).volatility_score = 0 ∧
    (score w [] p s a {}).final_score ≤ 6 := by
  by_cases hg : w.length < ({} : ScorerConfig).relative_strength_lookback_days + 1
  · unfold score
    rw [if_pos hg]
    exact ⟨rfl, rfl, by norm_num⟩
  · rw [score_spec w [] p s a {} hg]
    have hrs := rs_score_empty_market w {}
    refine ⟨hrs, ?_, ?_⟩
    · show calculate_volatility_score p a (calculate_relative_strength_score w [] {}) {} = 0
      rw [hrs, volatility_score_rs_zero]
    · show round2 (calculate_relative_strength_score w [] {} + calculate_volume_score w {} +
        calculate_sma_score p s {} +
        calculate_volatility_score p a (calculate_relative_strength_score w [] {}) {}) ≤ 6
      rw [hrs, volatility_score_rs_zero]
      have hv := (calculate_volume_score_bounds w {} (by norm_num)).2
      have hs := (calculate_sma_score_bounds p s {} (by norm_num)).2
      have hsum : (0 : ℚ) + calculate_volume_score w {} + calculate_sma_score p s {} + 0 ≤
          ((6 : ℤ) : ℚ) := by
        have hv3 : calculate_volume_score w {} ≤ 3 := hv
        have hs3 : calculate_sma_score p s {} ≤ 3 := hs
        push_cast
        linarith
      have := round2_le_of_le_int _ 6 hsum
      push_cast at this
      linarith

theorem step_day_no_market_no_trade (df : List EBar) (dates : List ℕ) (i : ℕ) :
    ∃ lg, step_day df dates none ({} : BacktestConfig) ({} : ScorerConfig) i =
      some (lg, none) := by
  rw [step_day.eq_def]
  rw [if_neg (by simp [regime_pass])]
  rw [if_neg ?hthr]
  case hthr =>
    intro hc
    have h6 := (score_empty_market
      (((df.drop (i - ({} : BacktestConfig).lookback_window)).take
        (({} : BacktestConfig).lookback_window)).map EBar.toBar)
      (((df.get? i).map EBar.close).getD 0)
      (some (((df.get? i).map EBar.sma50).getD 0))
      (some (((df.get? i).map EBar.atr14).getD 0))).2.2
    have h7 : (7 : ℚ) ≤ 6 := le_trans hc h6
    norm_num at h7
  exact ⟨_, rfl⟩

/-- C9: with no market index data the deterministic scorer's market window
is empty, so the relative-strength component is 0 on every day, the
volatility component is gated to 0, final_score never exceeds
volume_score_max + sma_bonus_score = 6.0 < 7.0 (the default trigger
threshold), and a deterministic backtest run without market data records
no trade at all. -/
theorem C9_no_market_data_no_trades (df : List EBar) (dates : List ℕ) :
    (∀ (w : List Bar) (p : ℚ) (s a : Option ℚ),
      (score w [] p s a ({} : ScorerConfig)).relative_strength_score = 0 ∧
      (score w [] p s a ({} : ScorerConfig)).volatility_score = 0 ∧
      (score w [] p s a ({} : ScorerConfig)).final_score ≤ 6) ∧
    (run_backtest_loop df dates none ({} : BacktestConfig)
      ({} : ScorerConfig)).1 = [] := by
  refine ⟨fun w p s a => score_empty_market w p s a, ?_⟩
  unfold run_backtest_loop
  generalize ((List.range (df.length - ({} : BacktestConfig).forward_window)).drop
    (({} : BacktestConfig).lookback_window)) = idxs
  have hfold : ∀ (idxs' : List ℕ) (acc : List TradeEntry × List LogEntry),
      acc.1 = [] →
      (idxs'.foldl (fun acc i =>
        match step_day df dates none ({} : BacktestConfig) ({} : ScorerConfig) i with
        | none => acc
        | some (log_entry, trade) => (acc.1 ++ trade.toList, acc.2 ++ [log_entry]))
        acc).1 = [] := by
    intro idxs'
    induction idxs' with
    | nil => intro acc h; exact h
    | cons j js ih =>
      intro acc h
      obtain ⟨lg, hj⟩ := step_day_no_market_no_trade df dates j
      rw [List.foldl_cons]
      rw [hj]
      exact ih _ (by simp [h])
  exact hfold idxs ([], []) rfl

theorem step_day_trade_outcome (df : List EBar) (dates : List ℕ)
    (regime : Option (List (ℕ × RegimeRow))) (cfg : BacktestConfig)
    (scfg : ScorerConfig) (i : ℕ) (lg : LogEntry) (t : TradeEntry)
    (h : step_day df dates regime cfg scfg i = some (lg, some t)) :
    t.outcome = (get_trade_outcome (df.map EBar.toBar) i
      (compute_risk (((df.get? i).map EBar.close).getD 0)
        (((df.get? i).map EBar.atr14).getD 0)) cfg).outcome := by
  rw [step_day.eq_def] at h
  split_ifs at h with h1 h2
  · have hsnd := congrArg Prod.snd (Option.some.inj h)
    have ht := Option.some.inj hsnd
    rw [← ht]
    rfl
  · exact Option.noConfusion (congrArg Prod.snd (Option.some.inj h))

/-- C6 (amended): every TradeRecord produced by the backtest loop has an
outcome equal to one of exactly the three labels STOP_LOSS_HIT,
TAKE_PROFIT_HIT, HOLD_20_DAYS — the source's hold label is HOLD_20_DAYS,
not the HOLD_TO_HORIZON the claim enumerates. -/
theorem C6_trade_outcome_labels (df : List EBar) (dates : List ℕ)
    (regime : Option (List (ℕ × RegimeRow))) (cfg : BacktestConfig)
    (scfg : ScorerConfig) :
    ∀ t ∈ (run_backtest_loop df dates regime cfg scfg).1,
      t.outcome = "STOP_LOSS_HIT" ∨ t.outcome = "TAKE_PROFIT_HIT" ∨
      t.outcome = "HOLD_20_DAYS" := by
  unfold run_backtest_loop
  generalize ((List.range (df.length - cfg.forward_window)).drop
    cfg.lookback_window) = idxs
  have hfold : ∀ (idxs' : List ℕ) (acc : List TradeEntry × List LogEntry),
      (∀ t ∈ acc.1, t.outcome = "STOP_LOSS_HIT" ∨
        t.outcome = "TAKE_PROFIT_HIT" ∨ t.outcome = "HOLD_20_DAYS") →
      ∀ t ∈ (idxs'.foldl (fun acc i =>
        match step_day df dates regime cfg scfg i with
        | none => acc
        | some (log_entry, trade) => (acc.1 ++ trade.toList, acc.2 ++ [log_entry]))
        acc).1,
        t.outcome = "STOP_LOSS_HIT" ∨ t.outcome = "TAKE_PROFIT_HIT" ∨
        t.outcome = "HOLD_20_DAYS" := by
    intro idxs'
    induction idxs' with
    | nil => intro acc hacc; exact hacc
    | cons j js ih =>
      intro acc hacc
      rw [List.foldl_cons]
      cases hj : step_day df dates regime cfg scfg j with
      | none =>
        exact ih acc hacc
      | some pair =>
        obtain ⟨lg, trade⟩ := pair
        apply ih
        intro t ht
        rcases List.mem_append.mp ht with h' | h'
        · exact hacc t h'
        · cases trade with
          | none => simp at h'
          | some tr =>
            rw [Option.toList_some, List.mem_singleton] at h'
            subst h'
            rw [step_day_trade_outcome df dates regime cfg scfg j lg t hj]
            exact get_trade_outcome_label_cases (df.map EBar.toBar) j _ cfg
  exact hfold idxs ([], []) (by intro t ht; simp at ht)

/-- Witness for C6_trade_outcome_labels: a two-bar run with threshold 0
produces exactly one trade, and its outcome label is among the three. -/
theorem C6_trade_outcome_labels_witness :
    c6_sample_trade.outcome = "STOP_LOSS_HIT" ∨
    c6_sample_trade.outcome = "TAKE_PROFIT_HIT" ∨
    c6_sample_trade.outcome = "HOLD_20_DAYS" := by
  have h1 : (run_backtest_loop [⟨1, 1, 1, 1, 1, 0⟩, ⟨1, 1, 1, 1, 1, 0⟩] []
      none ⟨1, 0, 0, 50, 14⟩ {}).1 = [c6_sample_trade] := by
    norm_num [run_backtest_loop, step_day, step_score, market_window,
      regime_pass, score, make_trade_entry, get_trade_outcome,
      trade_outcome_label, listMin?, listMax?, oleB, ogeB, compute_risk,
      round2, roundHalfEven, c6_sample_trade, EBar.toBar, List.range_succ]
  exact C6_trade_outcome_labels [⟨1, 1, 1, 1, 1, 0⟩, ⟨1, 1, 1, 1, 1, 0⟩] []
    none ⟨1, 0, 0, 50, 14⟩ {} c6_sample_trade (h1 ▸ List.mem_singleton_self _)

end AgentTrader
